import Mathlib

/-!
Verification of the token-data aggregation and scoring subsystem of the
`plugin-solana` package: the `TokenProvider` source adapters and aggregator
(`providers/token.ts`) and the `TrustScoreManager` scoring functions
(`providers/trustScoreProvider.ts`).

JavaScript numbers are modelled as exact rationals extended with `NaN` and the
two infinities (`JSNum`) where division by zero or non-finite results matter,
and as plain rationals (`ℚ`) elsewhere.  Nullable fields are `Option ℚ`
(`null`/`undefined` is `none`).  Effectful adapters are modelled as pure
functions of their cache state and fetch outcome, returning the produced value
together with the cache write they perform (`none` = no write); a thrown
exception is an `Except.error`.
-/

/-- JavaScript IEEE-754 numbers, modelled as exact rationals extended with
`NaN` and the two infinities.  Finite doubles are represented exactly by
rationals; rounding of doubles is not modelled (none of the verified
properties depends on it). -/
inductive JSNum where
  | nan : JSNum
  | posInf : JSNum
  | negInf : JSNum
  | num : ℚ → JSNum
deriving DecidableEq

namespace JSNum

/-- JavaScript division `a / b`, including the division-by-zero and
non-finite cases (`x/0` is `±Infinity` for `x ≠ 0`, `0/0` is `NaN`). -/
def jdiv : JSNum → JSNum → JSNum
  | nan, _ => nan
  | _, nan => nan
  | posInf, posInf => nan
  | posInf, negInf => nan
  | negInf, posInf => nan
  | negInf, negInf => nan
  | posInf, num b => if b < 0 then negInf else posInf
  | negInf, num b => if b < 0 then posInf else negInf
  | num _, posInf => num 0
  | num _, negInf => num 0
  | num a, num b =>
      if b = 0 then (if a = 0 then nan else if 0 < a then posInf else negInf)
      else num (a / b)

/-- JavaScript subtraction `a - b`. -/
def jsub : JSNum → JSNum → JSNum
  | nan, _ => nan
  | _, nan => nan
  | posInf, posInf => nan
  | posInf, _ => posInf
  | negInf, negInf => nan
  | negInf, _ => negInf
  | num _, posInf => negInf
  | num _, negInf => posInf
  | num a, num b => num (a - b)

/-- JavaScript addition `a + b`. -/
def jadd : JSNum → JSNum → JSNum
  | nan, _ => nan
  | _, nan => nan
  | posInf, negInf => nan
  | negInf, posInf => nan
  | posInf, _ => posInf
  | negInf, _ => negInf
  | num _, posInf => posInf
  | num _, negInf => negInf
  | num a, num b => num (a + b)

/-- JavaScript multiplication `a * b` (`±Infinity * 0` is `NaN`). -/
def jmul : JSNum → JSNum → JSNum
  | nan, _ => nan
  | _, nan => nan
  | posInf, posInf => posInf
  | posInf, negInf => negInf
  | negInf, posInf => negInf
  | negInf, negInf => posInf
  | posInf, num b => if b = 0 then nan else if 0 < b then posInf else negInf
  | negInf, num b => if b = 0 then nan else if 0 < b then negInf else posInf
  | num a, posInf => if a = 0 then nan else if 0 < a then posInf else negInf
  | num a, negInf => if a = 0 then nan else if 0 < a then negInf else posInf
  | num a, num b => num (a * b)

/-- JavaScript strict comparison `a < b`; any comparison involving `NaN`
is `false`. -/
def jltb : JSNum → JSNum → Bool
  | nan, _ => false
  | _, nan => false
  | posInf, _ => false
  | negInf, negInf => false
  | negInf, _ => true
  | num _, posInf => true
  | num _, negInf => false
  | num a, num b => decide (a < b)

/-- JavaScript comparison `a <= b`; any comparison involving `NaN` is
`false`. -/
def jleb : JSNum → JSNum → Bool
  | nan, _ => false
  | _, nan => false
  | negInf, _ => true
  | _, posInf => true
  | posInf, _ => false
  | num _, negInf => false
  | num a, num b => decide (a ≤ b)

/-- JavaScript comparison `a > b`. -/
def jgtb (a b : JSNum) : Bool := jltb b a

/-- `Math.min` (returns `NaN` if either argument is `NaN`). -/
def jmin : JSNum → JSNum → JSNum
  | nan, _ => nan
  | _, nan => nan
  | negInf, _ => negInf
  | _, negInf => negInf
  | posInf, b => b
  | a, posInf => a
  | num a, num b => num (min a b)

/-- `Math.max` (returns `NaN` if either argument is `NaN`). -/
def jmax : JSNum → JSNum → JSNum
  | nan, _ => nan
  | _, nan => nan
  | posInf, _ => posInf
  | _, posInf => posInf
  | negInf, b => b
  | a, negInf => a
  | num a, num b => num (max a b)

/-- `Math.abs`. -/
def jabs : JSNum → JSNum
  | nan => nan
  | posInf => posInf
  | negInf => posInf
  | num a => num |a|

/-- `Math.round` (round half toward positive infinity, i.e. `⌊x + 1/2⌋`). -/
def jround : JSNum → JSNum
  | nan => nan
  | posInf => posInf
  | negInf => negInf
  | num a => num (⌊a + 1/2⌋ : ℤ)

end JSNum

/-- The subset of the fields of `TokenTradeData` (`types/token.ts`) consumed
by the functions verified here.  `number | null` fields are `Option ℚ`;
plain `number` fields are `ℚ`.  Decimal amounts kept as strings in the
source are modelled by their rational value. -/
structure TokenTradeData where
  price : ℚ
  unique_wallet_24h : ℚ
  volume_24h : ℚ
  volume_24h_usd : ℚ
  unique_wallet_30m_change_percent : ℚ
  unique_wallet_1h_change_percent : ℚ
  unique_wallet_2h_change_percent : ℚ
  unique_wallet_4h_change_percent : ℚ
  unique_wallet_8h_change_percent : Option ℚ
  unique_wallet_24h_change_percent : Option ℚ
  trade_24h_change_percent : Option ℚ
  volume_24h_change_percent : Option ℚ
deriving DecidableEq

/-- The fields of `TokenPerformance` consumed by the `TrustScoreManager`
scoring functions. -/
structure TokenPerformance where
  priceChange24h : ℚ
  rugPull : Bool
  isScam : Bool
  rapidDump : Bool
  suspiciousVolume : Bool
deriving DecidableEq

/-- The numeric fields of `RecommenderMetrics`.  The `lastActiveDate` /
`lastUpdated` timestamps are not modelled; the number of inactive days
derived from them (`Math.floor((now - lastActive) / (1000*60*60*24))`) is
passed explicitly to `updateRecommenderMetrics`. -/
structure RecommenderMetrics where
  trustScore : ℚ
  totalRecommendations : ℕ
  successfulRecs : ℕ
  avgTokenPerformance : ℚ
  riskScore : ℚ
  consistencyScore : ℚ
  virtualConfidence : ℚ
  trustDecay : ℚ
deriving DecidableEq

namespace TrustScoreManager

/-- `private DECAY_RATE = 0.95` (trustScoreProvider.ts line 59). -/
def DECAY_RATE : ℚ := 95 / 100

/-- `private MAX_DECAY_DAYS = 30` (trustScoreProvider.ts line 60). -/
def MAX_DECAY_DAYS : ℕ := 30

/-- `TrustScoreManager.calculateRiskScore` (trustScoreProvider.ts lines
279-294): starts at 0 and adds fixed penalties for each fired flag. -/
def calculateRiskScore (tp : TokenPerformance) : ℚ :=
  let r0 : ℚ := 0
  let r1 := if tp.rugPull then r0 + 10 else r0
  let r2 := if tp.isScam then r1 + 10 else r1
  let r3 := if tp.rapidDump then r2 + 5 else r2
  let r4 := if tp.suspiciousVolume then r3 + 5 else r3
  r4

/-- `TrustScoreManager.calculateConsistencyScore` (lines 296-304):
`Math.abs(priceChange24h - avgTokenPerformance)`. -/
def calculateConsistencyScore (tp : TokenPerformance) (rm : RecommenderMetrics) : ℚ :=
  |tp.priceChange24h - rm.avgTokenPerformance|

/-- `TrustScoreManager.calculateTrustScore` (lines 253-264):
`(riskScore + consistencyScore) / 2`. -/
def calculateTrustScore (tp : TokenPerformance) (rm : RecommenderMetrics) : ℚ :=
  (calculateRiskScore tp + calculateConsistencyScore tp rm) / 2

/-- `TrustScoreManager.calculateOverallRiskScore` (lines 266-277): the same
body as `calculateTrustScore`: `(riskScore + consistencyScore) / 2`. -/
def calculateOverallRiskScore (tp : TokenPerformance) (rm : RecommenderMetrics) : ℚ :=
  (calculateRiskScore tp + calculateConsistencyScore tp rm) / 2

/-- The pure content of `TrustScoreManager.updateRecommenderMetrics`
(lines 191-251): computes the `newRecommenderMetrics` record written to the
store, from the previous metrics, the token performance, the recommender
balance and the number of inactive days. -/
def updateRecommenderMetrics (rm : RecommenderMetrics) (tp : TokenPerformance)
    (balance : ℚ) (inactiveDays : ℕ) : RecommenderMetrics :=
  let totalRecommendations := rm.totalRecommendations + 1
  let successfulRecs := if tp.rugPull then rm.successfulRecs else rm.successfulRecs + 1
  let avgTokenPerformance :=
    (rm.avgTokenPerformance * (rm.totalRecommendations : ℚ) + tp.priceChange24h) /
      (totalRecommendations : ℚ)
  let overallTrustScore := calculateTrustScore tp rm
  let riskScore := calculateOverallRiskScore tp rm
  let consistencyScore := calculateConsistencyScore tp rm
  let virtualConfidence := balance / 1000000
  let decayFactor := DECAY_RATE ^ (min inactiveDays MAX_DECAY_DAYS)
  let decayedScore := rm.trustScore * decayFactor
  { trustScore := overallTrustScore
    totalRecommendations := totalRecommendations
    successfulRecs := successfulRecs
    avgTokenPerformance := avgTokenPerformance
    riskScore := riskScore
    consistencyScore := consistencyScore
    virtualConfidence := virtualConfidence
    trustDecay := decayedScore }

/-- `TrustScoreManager.suspiciousVolume` (lines 306-317): computes
`unique_wallet_24h / volume_24h > 0.5` from the processed trade data, with
JavaScript division semantics (no division-by-zero guard). -/
def suspiciousVolume (td : TokenTradeData) : Bool :=
  JSNum.jgtb
    (JSNum.jdiv (JSNum.num td.unique_wallet_24h) (JSNum.num td.volume_24h))
    (JSNum.num (1 / 2))

end TrustScoreManager

/-- JavaScript `a || b` on an optional number: `a` is falsy when missing or
zero (`NaN` does not arise for these fields, see the field mappings). -/
def jsOr (a : Option ℚ) (b : ℚ) : ℚ :=
  match a with
  | some x => if x = 0 then b else x
  | none => b

/-- JavaScript `a || null` on an optional number: a present zero collapses
to `null`. -/
def jsOrNull (a : Option ℚ) : Option ℚ :=
  match a with
  | some x => if x = 0 then none else some x
  | none => none

/-- `TokenSecurityData` (`types/token.ts`): the balances are decimal strings
in the source, modelled by their rational value. -/
structure TokenSecurityData where
  ownerBalance : ℚ
  creatorBalance : ℚ
  ownerPercentage : ℚ
  creatorPercentage : ℚ
  top10HolderBalance : ℚ
  top10HolderPercent : ℚ
  totalSupply : ℚ
deriving DecidableEq

/-- The zeroed default security record returned when the security source
fails or answers with an invalid payload (token.ts lines 806-814 and
832-840). -/
def defaultTokenSecurityData : TokenSecurityData :=
  { ownerBalance := 0
    creatorBalance := 0
    ownerPercentage := 0
    creatorPercentage := 0
    top10HolderBalance := 0
    top10HolderPercent := 0
    totalSupply := 0 }

/-- A raw Birdeye response envelope: `{ success, data }` with every payload
field possibly missing. -/
structure BirdeyeResponse (α : Type) where
  success : Bool
  data : Option α
deriving DecidableEq

/-- The raw `data` payload of the Birdeye token-security endpoint, with every
field optional (missing fields are defaulted during mapping). -/
structure BirdeyeSecurityData where
  ownerBalance : Option ℚ
  creatorBalance : Option ℚ
  ownerPercentage : Option ℚ
  creatorPercentage : Option ℚ
  top10HolderBalance : Option ℚ
  top10HolderPercent : Option ℚ
  totalSupply : Option ℚ
deriving DecidableEq

namespace TokenProvider

/-- `TokenProvider.fetchTokenSecurity` (token.ts lines 787-842), as a pure
function of the cached entry and the `fetchWithRetry` outcome.  Returns the
security record together with the cache write performed (`none` = no write).
The balance fields are mapped with `?.toString() ||` fallbacks (a present
numeric zero stringifies to the truthy "0", so only a missing field falls
through), the percentage fields with numeric `||` (zero falls through). -/
def fetchTokenSecurity (cached : Option TokenSecurityData)
    (fetched : Except Unit (BirdeyeResponse BirdeyeSecurityData)) :
    TokenSecurityData × Option TokenSecurityData :=
  match cached with
  | some d => (d, none)
  | none =>
    match fetched with
    | .error _ => (defaultTokenSecurityData, none)
    | .ok resp =>
      match resp.success, resp.data with
      | true, some raw =>
        let security : TokenSecurityData :=
          { ownerBalance := ((raw.ownerBalance).orElse (fun _ => raw.creatorBalance)).getD 0
            creatorBalance := (raw.creatorBalance).getD 0
            ownerPercentage := jsOr raw.ownerPercentage (jsOr raw.creatorPercentage 0)
            creatorPercentage := jsOr raw.creatorPercentage 0
            top10HolderBalance := (raw.top10HolderBalance).getD 0
            top10HolderPercent := jsOr raw.top10HolderPercent 0
            totalSupply := (raw.totalSupply).getD 0 }
        (security, some security)
      | _, _ => (defaultTokenSecurityData, none)

/-- `TokenProvider.getDefaultTradeData` (token.ts lines 75-261), restricted
to the modelled fields: every numeric field is zero, the nullable
change-percent fields are `null`. -/
def getDefaultTradeData : TokenTradeData :=
  { price := 0
    unique_wallet_24h := 0
    volume_24h := 0
    volume_24h_usd := 0
    unique_wallet_30m_change_percent := 0
    unique_wallet_1h_change_percent := 0
    unique_wallet_2h_change_percent := 0
    unique_wallet_4h_change_percent := 0
    unique_wallet_8h_change_percent := none
    unique_wallet_24h_change_percent := none
    trade_24h_change_percent := none
    volume_24h_change_percent := none }

/-- The raw `data` payload of the Birdeye token-overview endpoint (the
modelled subset), with every field optional. -/
structure BirdeyeOverview where
  price : Option ℚ
  uniqueWallet24h : Option ℚ
  v24h : Option ℚ
  v24hUSD : Option ℚ
  uniqueWallet30mChangePercent : Option ℚ
  uniqueWallet1hChangePercent : Option ℚ
  uniqueWallet2hChangePercent : Option ℚ
  uniqueWallet4hChangePercent : Option ℚ
  uniqueWallet8hChangePercent : Option ℚ
  uniqueWallet24hChangePercent : Option ℚ
  trade24hChangePercent : Option ℚ
  v24hChangePercent : Option ℚ
deriving DecidableEq

/-- The field mapping from a Birdeye overview payload to `TokenTradeData`
(token.ts lines 879-1097, modelled subset).  `|| 0` on a number equals
`getD 0`; the 8h/24h unique-wallet change percents are taken verbatim
(possibly `undefined`, modelled as `none`); `|| null` collapses a present
zero to `null`. -/
def mapOverview (o : BirdeyeOverview) : TokenTradeData :=
  { price := (o.price).getD 0
    unique_wallet_24h := (o.uniqueWallet24h).getD 0
    volume_24h := (o.v24h).getD 0
    volume_24h_usd := (o.v24hUSD).getD 0
    unique_wallet_30m_change_percent := (o.uniqueWallet30mChangePercent).getD 0
    unique_wallet_1h_change_percent := (o.uniqueWallet1hChangePercent).getD 0
    unique_wallet_2h_change_percent := (o.uniqueWallet2hChangePercent).getD 0
    unique_wallet_4h_change_percent := (o.uniqueWallet4hChangePercent).getD 0
    unique_wallet_8h_change_percent := o.uniqueWallet8hChangePercent
    unique_wallet_24h_change_percent := o.uniqueWallet24hChangePercent
    trade_24h_change_percent := jsOrNull o.trade24hChangePercent
    volume_24h_change_percent := jsOrNull o.v24hChangePercent }

/-- The cache-miss path of `TokenProvider.fetchTokenTradeData` (token.ts
lines 853-1109): a missing API key returns `null` (`Except.ok none`); a
fetch failure or an unsuccessful/empty response is a thrown
`"Failed to fetch token trade data"` (`Except.error`); on success the
mapped record is returned and written to the cache. -/
def fetchTokenTradeDataFresh (hasApiKey : Bool)
    (fetched : Except Unit (BirdeyeResponse BirdeyeOverview)) :
    Except Unit (Option TokenTradeData) × Option TokenTradeData :=
  if hasApiKey = false then (.ok none, none)
  else
    match fetched with
    | .error _ => (.error (), none)
    | .ok resp =>
      match resp.success, resp.data with
      | true, some overview =>
        let tradeData := mapOverview overview
        (.ok (some tradeData), some tradeData)
      | _, _ => (.error (), none)

/-- `TokenProvider.fetchTokenTradeData` (token.ts lines 844-1110): a cached
record with a truthy (nonzero) price is returned without fetching;
otherwise the fresh path runs. -/
def fetchTokenTradeData (cached : Option TokenTradeData) (hasApiKey : Bool)
    (fetched : Except Unit (BirdeyeResponse BirdeyeOverview)) :
    Except Unit (Option TokenTradeData) × Option TokenTradeData :=
  match cached with
  | some d => if d.price = 0 then fetchTokenTradeDataFresh hasApiKey fetched else (.ok (some d), none)
  | none => fetchTokenTradeDataFresh hasApiKey fetched

/-- A DexScreener pair, restricted to the fields consumed by the verified
functions. -/
structure DexScreenerPair where
  chainId : String
  baseTokenAddress : String
  liquidityUsd : ℚ
  marketCap : ℚ
  boostsActive : Option ℚ
deriving DecidableEq

/-- `DexScreenerData`: schema version plus the pair list. -/
structure DexScreenerData where
  schemaVersion : String
  pairs : List DexScreenerPair
deriving DecidableEq

/-- The empty DexScreener record `{ schemaVersion: "1.0.0", pairs: [] }`
used as the default (token.ts lines 1166-1170 and 1197-1201). -/
def emptyDexScreenerData : DexScreenerData :=
  { schemaVersion := "1.0.0", pairs := [] }

/-- The fetch path of `TokenProvider.fetchDexScreenerData` (token.ts lines
1154-1202): a fetch failure or an empty pair list yields the empty record
without caching; otherwise the pairs are filtered to Solana pairs whose base
token matches, and the result is cached only when that filtered list is
non-empty. -/
def fetchDexScreenerDataFresh (tokenAddress : String)
    (fetched : Except Unit DexScreenerData) :
    DexScreenerData × Option DexScreenerData :=
  match fetched with
  | .error _ => (emptyDexScreenerData, none)
  | .ok data =>
    if data.pairs.length = 0 then (emptyDexScreenerData, none)
    else
      let solanaPairs := data.pairs.filter
        (fun pair => pair.chainId = "solana" &&
          pair.baseTokenAddress.toLower = tokenAddress.toLower)
      let dexData : DexScreenerData :=
        { schemaVersion := data.schemaVersion, pairs := solanaPairs }
      if solanaPairs.length > 0 then (dexData, some dexData) else (dexData, none)

/-- `TokenProvider.fetchDexScreenerData` (token.ts lines 1142-1203): a
cached record with a non-empty pair list is returned without fetching. -/
def fetchDexScreenerData (tokenAddress : String) (cached : Option DexScreenerData)
    (fetched : Except Unit DexScreenerData) :
    DexScreenerData × Option DexScreenerData :=
  match cached with
  | some c =>
    if c.pairs.length > 0 then (c, none)
    else fetchDexScreenerDataFresh tokenAddress fetched
  | none => fetchDexScreenerDataFresh tokenAddress fetched

/-- A holder record `(address, balance)`; the balance is a decimal string in
the source, modelled by its rational value. -/
structure HolderData where
  address : String
  balance : ℚ
deriving DecidableEq

/-- A raw account entry of the Helius `getTokenLargestAccounts` response;
`amount` is `none` when the field is missing or empty (a present "0" string
is truthy and kept). -/
structure HeliusAccount where
  address : String
  amount : Option ℚ
deriving DecidableEq

/-- The Helius RPC response: `result.value` is `none` when absent or not an
array. -/
structure HeliusResponse where
  value : Option (List HeliusAccount)
deriving DecidableEq

/-- The fetch path of `TokenProvider.fetchHolderList` (token.ts lines
1333-1396): a fetch error or an invalid response shape yields `[]` without
caching; a valid response is mapped to holder records, entries with a falsy
address or amount are dropped, and the list is cached only when non-empty
(`if (holders.length > 0)`). -/
def fetchHolderListFresh (fetched : Except Unit HeliusResponse) :
    List HolderData × Option (List HolderData) :=
  match fetched with
  | .error _ => ([], none)
  | .ok resp =>
    match resp.value with
    | none => ([], none)
    | some accounts =>
      let holders := accounts.filterMap (fun account =>
        match account.amount with
        | some q => if account.address = "" then none else some (HolderData.mk account.address q)
        | none => none)
      if holders.length > 0 then (holders, some holders) else (holders, none)

/-- `TokenProvider.fetchHolderList` (token.ts lines 1318-1397): a cached
non-empty list is returned without fetching, otherwise the fresh path
runs. -/
def fetchHolderList (cached : Option (List HolderData))
    (fetched : Except Unit HeliusResponse) :
    List HolderData × Option (List HolderData) :=
  match cached with
  | some l => if l.length > 0 then (l, none) else fetchHolderListFresh fetched
  | none => fetchHolderListFresh fetched

/-- The fields of `TokenCodex` consumed by the verified functions. -/
structure TokenCodex where
  id : String
  address : String
  symbol : String
  decimals : ℚ
  totalSupply : ℚ
  isScam : Bool
deriving DecidableEq

/-- The raw GraphQL token payload of the Codex endpoint (modelled subset). -/
structure CodexToken where
  id : String
  address : String
  symbol : String
  decimals : ℚ
  totalSupply : ℚ
  isScam : Bool
deriving DecidableEq

/-- The Codex GraphQL response: HTTP `ok` flag, presence of GraphQL errors,
and the token payload (`none` when absent). -/
structure CodexResponse where
  ok : Bool
  hasErrors : Bool
  token : Option CodexToken
deriving DecidableEq

/-- `TokenProvider.fetchTokenCodex` (token.ts lines 530-657): throws when
the token address is missing, when the fetch fails, when the HTTP response
is not ok, when the GraphQL payload carries errors, or when no token is
returned (the catch block rethrows); on success the mapped record is
returned and cached. -/
def fetchTokenCodex (tokenAddress : Option String) (cached : Option TokenCodex)
    (fetched : Except Unit CodexResponse) :
    Except Unit TokenCodex × Option TokenCodex :=
  match tokenAddress with
  | none => (.error (), none)
  | some _ =>
    match cached with
    | some c => (.ok c, none)
    | none =>
      match fetched with
      | .error _ => (.error (), none)
      | .ok resp =>
        if resp.ok = false then (.error (), none)
        else if resp.hasErrors then (.error (), none)
        else
          match resp.token with
          | none => (.error (), none)
          | some t =>
            let tokenCodex : TokenCodex :=
              { id := t.id, address := t.address, symbol := t.symbol,
                decimals := t.decimals, totalSupply := t.totalSupply,
                isScam := t.isScam }
            (.ok tokenCodex, some tokenCodex)

end TokenProvider

namespace TokenProvider

/-- `TokenProvider.analyzeHolderDistribution` (token.ts lines 1259-1316).
Each interval change is `tradeData?.<bucket>_change_percent ?? 0`, so a
`null` bucket (and a missing trade-data record) is coalesced to `0` before
the `validChanges` filter runs; that filter (`!== null && !== undefined &&
!isNaN`) therefore keeps every element: the average always divides by six.
Thresholds: average > 10 → "increasing", < -10 → "decreasing", else
"stable". -/
def analyzeHolderDistribution (tradeData : Option TokenTradeData) : String :=
  let changes : List ℚ :=
    [ (tradeData.map (fun t => t.unique_wallet_30m_change_percent)).getD 0,
      (tradeData.map (fun t => t.unique_wallet_1h_change_percent)).getD 0,
      (tradeData.map (fun t => t.unique_wallet_2h_change_percent)).getD 0,
      (tradeData.map (fun t => t.unique_wallet_4h_change_percent)).getD 0,
      (tradeData.bind (fun t => t.unique_wallet_8h_change_percent)).getD 0,
      (tradeData.bind (fun t => t.unique_wallet_24h_change_percent)).getD 0 ]
  let validChanges := changes
  if validChanges.length = 0 then "stable"
  else
    let averageChange := validChanges.sum / (validChanges.length : ℚ)
    if averageChange > 10 then "increasing"
    else if averageChange < -10 then "decreasing"
    else "stable"

/-- A high-value holder entry produced by `filterHighValueHolders`; the
source formats `balanceUsd` with `toFixed(2)`, modelled by the exact
product. -/
structure HighValueHolder where
  holderAddress : String
  balanceUsd : ℚ
deriving DecidableEq

/-- `TokenProvider.filterHighValueHolders` (token.ts lines 1399-1451), with
the holder list (the `fetchHolderList` result) passed explicitly: missing
trade data or a falsy price yields `[]`, an empty holder list yields `[]`,
otherwise holders whose balance times price exceeds 5 USD are kept. -/
def filterHighValueHolders (tradeData : Option TokenTradeData)
    (holdersData : List HolderData) : List HighValueHolder :=
  match tradeData with
  | none => []
  | some td =>
    if td.price = 0 then []
    else if holdersData.length = 0 then []
    else
      ((holdersData.filter (fun holder => decide (holder.balance * td.price > 5))).map
        (fun holder => HighValueHolder.mk holder.address (holder.balance * td.price)))

/-- `TokenProvider.checkRecentTrades` (token.ts lines 1453-1468): false on
missing trade data or falsy 24h volume, else `volume_24h_usd > 0`. -/
def checkRecentTrades (tradeData : Option TokenTradeData) : Bool :=
  match tradeData with
  | none => false
  | some td => if td.volume_24h_usd = 0 then false else decide (td.volume_24h_usd > 0)

/-- `TokenProvider.countHighSupplyHolders` (token.ts lines 1470-1528), with
the holder list passed explicitly: zero on missing security data or zero
total supply, else the count of holders whose balance exceeds 2% of total
supply.  (The `balanceToUse` string-falsiness guard cannot fire for the
modelled decimal values — the string "0" is truthy — and `mainBalance` is
never used afterwards.) -/
def countHighSupplyHolders (securityData : Option TokenSecurityData)
    (holdersData : List HolderData) : ℕ :=
  match securityData with
  | none => 0
  | some sec =>
    if sec.totalSupply = 0 then 0
    else (holdersData.filter
      (fun holder => decide (holder.balance / sec.totalSupply > 2 / 100))).length

/-- The aggregator output `ProcessedTokenData` (modelled subset);
`tradeData` is optional because `fetchTokenTradeData` can resolve to `null`
when the API key is missing. -/
structure ProcessedTokenData where
  security : TokenSecurityData
  tradeData : Option TokenTradeData
  holderDistributionTrend : String
  highValueHolders : List HighValueHolder
  recentTrades : Bool
  highSupplyHoldersCount : ℕ
  dexScreenerData : DexScreenerData
  isDexScreenerListed : Bool
  isDexScreenerPaid : Bool
  tokenCodex : TokenCodex
deriving DecidableEq

/-- The default `TokenCodex` substituted by the aggregator when
`fetchTokenCodex` throws (token.ts lines 1560-1572, modelled subset). -/
def defaultTokenCodex (address : String) : TokenCodex :=
  { id := "", address := address, symbol := "", decimals := 9,
    totalSupply := 0, isScam := false }

/-- The environment of one `getProcessedTokenData` run for a valid (non-null)
token identifier: the cache state seen by each adapter and the outcome of
each network interaction.  `tradeRecached` is the in-memory cache entry seen
by the retry issued after the durable trade-data entry is deleted;
`cacheDeleteFails` is whether that `cacheManager.delete` call throws. -/
structure AggEnv where
  tokenAddress : String
  securityCached : Option TokenSecurityData
  securityFetch : Except Unit (BirdeyeResponse BirdeyeSecurityData)
  codexCached : Option TokenCodex
  codexFetch : Except Unit CodexResponse
  tradeCached : Option TokenTradeData
  hasApiKey : Bool
  tradeFetch : Except Unit (BirdeyeResponse BirdeyeOverview)
  tradeRecached : Option TokenTradeData
  tradeRefetch : Except Unit (BirdeyeResponse BirdeyeOverview)
  cacheDeleteFails : Bool
  dexCached : Option DexScreenerData
  dexFetch : Except Unit DexScreenerData
  holderCached : Option (List HolderData)
  holderFetch : Except Unit HeliusResponse

/-- `TokenProvider.getProcessedTokenData` (token.ts lines 1530-1656) for a
valid token identifier.  Every adapter failure is absorbed: a security
failure already returns the default inside the adapter; a codex exception is
replaced by `defaultTokenCodex`; a trade-data exception (on either attempt,
or from the cache delete between them) is replaced by
`getDefaultTradeData`; a trade-data `null`/zero-price result triggers one
cache-delete-and-retry whose result is used as is; a DEX failure yields the
empty pair list.  The outer catch only rethrows errors that escaped the
inner handlers, and none can. -/
def getProcessedTokenData (env : AggEnv) : Except Unit ProcessedTokenData :=
  let security := (fetchTokenSecurity env.securityCached env.securityFetch).1
  let tokenCodex :=
    match (fetchTokenCodex (some env.tokenAddress) env.codexCached env.codexFetch).1 with
    | .ok c => c
    | .error _ => defaultTokenCodex env.tokenAddress
  let tradeData : Option TokenTradeData :=
    match (fetchTokenTradeData env.tradeCached env.hasApiKey env.tradeFetch).1 with
    | .error _ => some getDefaultTradeData
    | .ok tdOpt =>
      let invalid := match tdOpt with | none => true | some td => td.price = 0
      if invalid then
        if env.cacheDeleteFails then some getDefaultTradeData
        else
          match (fetchTokenTradeData env.tradeRecached env.hasApiKey env.tradeRefetch).1 with
          | .error _ => some getDefaultTradeData
          | .ok td2 => td2
      else tdOpt
  let dexData0 := (fetchDexScreenerData env.tokenAddress env.dexCached env.dexFetch).1
  let dexData := if dexData0.pairs.length = 0 then emptyDexScreenerData else dexData0
  let holders := (fetchHolderList env.holderCached env.holderFetch).1
  let holderDistributionTrend := analyzeHolderDistribution tradeData
  let highValueHolders := filterHighValueHolders tradeData holders
  let recentTrades := checkRecentTrades tradeData
  let highSupplyHoldersCount := countHighSupplyHolders (some security) holders
  let isDexScreenerListed := decide (dexData.pairs.length > 0)
  let isDexScreenerPaid := dexData.pairs.any (fun pair =>
    match pair.boostsActive with
    | some a => decide (a > 0)
    | none => false)
  .ok { security := security
        tradeData := tradeData
        holderDistributionTrend := holderDistributionTrend
        highValueHolders := highValueHolders
        recentTrades := recentTrades
        highSupplyHoldersCount := highSupplyHoldersCount
        dexScreenerData := dexData
        isDexScreenerListed := isDexScreenerListed
        isDexScreenerPaid := isDexScreenerPaid
        tokenCodex := tokenCodex }

/-- The `TokenProvider` constructor (token.ts lines 47-69), as the token
address the constructed provider ends up holding.  `normalizeAddress` lives
outside the analysed sources, so it is passed as a function; when it throws,
the catch block sets the address to `null` and construction continues. -/
def tokenProviderInit (tokenAddress : Option String)
    (normalizeAddress : String → Except Unit String) : Option String :=
  match tokenAddress with
  | some a =>
    match normalizeAddress a with
    | .ok n => some n
    | .error _ => none
  | none => none

/-- The ordering the `getHighestLiquidityPair` comparator (token.ts lines
1250-1256) induces: `a` sorts no later than `b` when `a` has strictly higher
liquidity, or equal liquidity and market cap at least as high. -/
def pairLe (a b : DexScreenerPair) : Prop :=
  b.liquidityUsd < a.liquidityUsd ∨
    (a.liquidityUsd = b.liquidityUsd ∧ b.marketCap ≤ a.marketCap)

instance : DecidableRel pairLe := fun a b => by
  unfold pairLe
  infer_instance

instance : IsTotal DexScreenerPair pairLe := by
  constructor
  intro a b
  unfold pairLe
  rcases lt_trichotomy a.liquidityUsd b.liquidityUsd with h | h | h
  · exact Or.inr (Or.inl h)
  · rcases le_total a.marketCap b.marketCap with hm | hm
    · exact Or.inr (Or.inr ⟨h.symm, hm⟩)
    · exact Or.inl (Or.inr ⟨h, hm⟩)
  · exact Or.inl (Or.inl h)

instance : IsTrans DexScreenerPair pairLe := by
  constructor
  intro a b c hab hbc
  unfold pairLe at hab hbc ⊢
  rcases hab with h1 | ⟨h1, h1m⟩
  · rcases hbc with h2 | ⟨h2, _⟩
    · exact Or.inl (h2.trans h1)
    · exact Or.inl (h2 ▸ h1)
  · rcases hbc with h2 | ⟨h2, h2m⟩
    · exact Or.inl (h1 ▸ h2)
    · exact Or.inr ⟨h1.trans h2, h2m.trans h1m⟩

/-- `TokenProvider.getHighestLiquidityPair` (token.ts lines 1244-1257).
`Array.prototype.sort` mutates the caller's array; the first component of
the result is the argument as the caller sees it after the call, the second
is the returned pair.  An empty pair list returns `null` and leaves the
data untouched; otherwise the pairs are sorted by the comparator (descending
liquidity, ties by descending market cap) and the first element is
returned. -/
def getHighestLiquidityPair (dexData : DexScreenerData) :
    DexScreenerData × Option DexScreenerPair :=
  if dexData.pairs.length = 0 then (dexData, none)
  else
    let sorted := List.insertionSort pairLe dexData.pairs
    ({ dexData with pairs := sorted }, sorted.head?)

/-- `TokenProvider.normalize` (token.ts lines 1729-1731):
`Math.max(0, Math.min(1, (value - min) / (max - min)))` with JavaScript
number semantics. -/
def normalize (value minV maxV : JSNum) : JSNum :=
  JSNum.jmax (JSNum.num 0)
    (JSNum.jmin (JSNum.num 1) (JSNum.jdiv (JSNum.jsub value minV) (JSNum.jsub maxV minV)))

/-- The token signals consumed by `calculateGemScore`. -/
structure GemToken where
  volume24hUSD : JSNum
  liquidityUSD : JSNum
  priceChange24h_percent : JSNum
  marketCap : JSNum
deriving DecidableEq

/-- The caller-supplied criteria thresholds consumed by
`calculateGemScore`. -/
structure GemCriteria where
  volumeThreshold : JSNum
  liquidityThreshold : JSNum
  priceSurgeThreshold : JSNum
  maxMarketCap : JSNum
deriving DecidableEq

/-- `TokenProvider.calculateGemScore` (token.ts lines 1733-1748): weighted
sum of the four normalized signals (weights 0.3 / 0.25 / 0.25 / 0.2, the
market-cap term inverted), scaled by 100 and rounded. -/
def calculateGemScore (token : GemToken) (criteria : GemCriteria) : JSNum :=
  let score0 := JSNum.num 0
  let score1 := JSNum.jadd score0
    (JSNum.jmul (normalize token.volume24hUSD (JSNum.num 0) criteria.volumeThreshold)
      (JSNum.num (3 / 10)))
  let score2 := JSNum.jadd score1
    (JSNum.jmul (normalize token.liquidityUSD (JSNum.num 0) criteria.liquidityThreshold)
      (JSNum.num (1 / 4)))
  let score3 := JSNum.jadd score2
    (JSNum.jmul
      (normalize (JSNum.jabs token.priceChange24h_percent) (JSNum.num 0)
        criteria.priceSurgeThreshold)
      (JSNum.num (1 / 4)))
  let score4 := JSNum.jadd score3
    (JSNum.jmul
      (JSNum.jsub (JSNum.num 1) (normalize token.marketCap (JSNum.num 0) criteria.maxMarketCap))
      (JSNum.num (1 / 5)))
  JSNum.jround (JSNum.jmul score4 (JSNum.num 100))

end TokenProvider

/-- Modelled from the spec: the holder-distribution trend as the claim
states it — average the unique-wallet percent-change across the six time
buckets with `null` buckets excluded from the average, `increasing` above
+10, `decreasing` below -10, else `stable`, and `stable` when no bucket
holds a numeric value.  Stated for comparison with the source's
`analyzeHolderDistribution`. -/
def specHolderDistributionTrend (t : TokenTradeData) : String :=
  let buckets : List (Option ℚ) :=
    [ some t.unique_wallet_30m_change_percent,
      some t.unique_wallet_1h_change_percent,
      some t.unique_wallet_2h_change_percent,
      some t.unique_wallet_4h_change_percent,
      t.unique_wallet_8h_change_percent,
      t.unique_wallet_24h_change_percent ]
  let vals := buckets.filterMap id
  if vals.length = 0 then "stable"
  else
    let avg := vals.sum / (vals.length : ℚ)
    if avg > 10 then "increasing"
    else if avg < -10 then "decreasing"
    else "stable"

/-- The coalesced bucket average the source actually computes: every
`null` bucket (or missing record) contributes `0` and the divisor is always
six. -/
def coalescedBucketAverage (tradeData : Option TokenTradeData) : ℚ :=
  ((tradeData.map (fun t => t.unique_wallet_30m_change_percent)).getD 0 +
    (tradeData.map (fun t => t.unique_wallet_1h_change_percent)).getD 0 +
    (tradeData.map (fun t => t.unique_wallet_2h_change_percent)).getD 0 +
    (tradeData.map (fun t => t.unique_wallet_4h_change_percent)).getD 0 +
    (tradeData.bind (fun t => t.unique_wallet_8h_change_percent)).getD 0 +
    (tradeData.bind (fun t => t.unique_wallet_24h_change_percent)).getD 0) / 6

/-- The amended trend computation: thresholds ±10 applied to the coalesced
six-bucket average. -/
def amendedHolderTrend (tradeData : Option TokenTradeData) : String :=
  if coalescedBucketAverage tradeData > 10 then "increasing"
  else if coalescedBucketAverage tradeData < -10 then "decreasing"
  else "stable"

/-- Clamp a rational to `[0, 1]`. -/
def clamp01 (x : ℚ) : ℚ := max 0 (min 1 x)

/-- Trade data with fifty unique 24h wallets and zero 24h volume (the
scenario of the suspicious-volume claim). -/
def exTradeZeroVolume : TokenTradeData :=
  { price := 1
    unique_wallet_24h := 50
    volume_24h := 0
    volume_24h_usd := 0
    unique_wallet_30m_change_percent := 0
    unique_wallet_1h_change_percent := 0
    unique_wallet_2h_change_percent := 0
    unique_wallet_4h_change_percent := 0
    unique_wallet_8h_change_percent := none
    unique_wallet_24h_change_percent := none
    trade_24h_change_percent := none
    volume_24h_change_percent := none }

/-- Trade data whose four non-nullable buckets read 13% and whose 8h/24h
buckets are `null`: the non-null average is 13 (> 10) but the coalesced
six-bucket average is 52/6 ≈ 8.67. -/
def exTradeNullBuckets : TokenTradeData :=
  { price := 1
    unique_wallet_24h := 0
    volume_24h := 0
    volume_24h_usd := 0
    unique_wallet_30m_change_percent := 13
    unique_wallet_1h_change_percent := 13
    unique_wallet_2h_change_percent := 13
    unique_wallet_4h_change_percent := 13
    unique_wallet_8h_change_percent := none
    unique_wallet_24h_change_percent := none
    trade_24h_change_percent := none
    volume_24h_change_percent := none }

/-- Gem criteria with a zero (non-negative) volume threshold and unit
thresholds elsewhere. -/
def exGemCriteriaZeroVolumeThreshold : TokenProvider.GemCriteria :=
  { volumeThreshold := JSNum.num 0
    liquidityThreshold := JSNum.num 1
    priceSurgeThreshold := JSNum.num 1
    maxMarketCap := JSNum.num 1 }

/-- A gem token with zero volume (and zero for every other signal). -/
def exGemTokenVolumeZero : TokenProvider.GemToken :=
  { volume24hUSD := JSNum.num 0
    liquidityUSD := JSNum.num 0
    priceChange24h_percent := JSNum.num 0
    marketCap := JSNum.num 0 }

/-- The same gem token with unit volume. -/
def exGemTokenVolumeOne : TokenProvider.GemToken :=
  { volume24hUSD := JSNum.num 1
    liquidityUSD := JSNum.num 0
    priceChange24h_percent := JSNum.num 0
    marketCap := JSNum.num 0 }

/-- A two-pair DexScreener record (out of order) used to instantiate the
sorting theorem. -/
def exDexData : TokenProvider.DexScreenerData :=
  { schemaVersion := "1.0.0"
    pairs :=
      [ { chainId := "solana", baseTokenAddress := "a", liquidityUsd := 5,
          marketCap := 10, boostsActive := none },
        { chainId := "solana", baseTokenAddress := "b", liquidityUsd := 7,
          marketCap := 3, boostsActive := none } ] }

/-- C1: for every valid token identifier, `getProcessedTokenData` returns a
`ProcessedTokenData` value and never throws, whatever the cache state and
the outcome of every source interaction — in particular when every source
adapter (security, trade data, token codex, DEX pairs, holder list)
fails. -/
theorem getProcessedTokenData_total (env : TokenProvider.AggEnv) :
    ∃ d, TokenProvider.getProcessedTokenData env = Except.ok d :=
  ⟨_, rfl⟩

/-- C7: the decayed trust score written to `trustDecay` by
`updateRecommenderMetrics` equals the previous trust score times
`0.95 ^ min(inactiveDays, 30)`; in particular a trust score of 80 with 40
days of inactivity decays to exactly `80 * 0.95^30`, which differs from
`80 * 0.95^40`. -/
theorem updateRecommenderMetrics_trustDecay (rm : RecommenderMetrics)
    (tp : TokenPerformance) (balance : ℚ) (d : ℕ) :
    (TrustScoreManager.updateRecommenderMetrics rm tp balance d).trustDecay =
      rm.trustScore * (95 / 100 : ℚ) ^ (min d 30) ∧
    (TrustScoreManager.updateRecommenderMetrics { rm with trustScore := 80 }
        tp balance 40).trustDecay = 80 * (95 / 100 : ℚ) ^ 30 ∧
    (TrustScoreManager.updateRecommenderMetrics { rm with trustScore := 80 }
        tp balance 40).trustDecay ≠ 80 * (95 / 100 : ℚ) ^ 40 := by
  refine ⟨rfl, ?_, ?_⟩
  · show (80 : ℚ) * TrustScoreManager.DECAY_RATE ^ (min 40 TrustScoreManager.MAX_DECAY_DAYS) =
      80 * (95 / 100 : ℚ) ^ 30
    norm_num [TrustScoreManager.DECAY_RATE, TrustScoreManager.MAX_DECAY_DAYS]
  · show (80 : ℚ) * TrustScoreManager.DECAY_RATE ^ (min 40 TrustScoreManager.MAX_DECAY_DAYS) ≠
      80 * (95 / 100 : ℚ) ^ 40
    norm_num [TrustScoreManager.DECAY_RATE, TrustScoreManager.MAX_DECAY_DAYS]

/-- C9: `calculateTrustScore` and `calculateOverallRiskScore` are
extensionally equal (both compute `(riskScore + consistencyScore) / 2` from
the same inputs), so every `updateRecommenderMetrics` result carries a
`trustScore` field equal to its `riskScore` field. -/
theorem calculateTrustScore_eq_calculateOverallRiskScore
    (tp : TokenPerformance) (rm : RecommenderMetrics) :
    TrustScoreManager.calculateTrustScore tp rm =
      TrustScoreManager.calculateOverallRiskScore tp rm ∧
    ∀ balance d,
      (TrustScoreManager.updateRecommenderMetrics rm tp balance d).trustScore =
        (TrustScoreManager.updateRecommenderMetrics rm tp balance d).riskScore :=
  ⟨rfl, fun _ _ => rfl⟩

/-- C4 counterexample: the trade-data adapter does not return its zeroed
default record on a source failure — with a cache miss, an available API
key and a failed fetch it propagates an exception
(`throw new Error("Failed to fetch token trade data")`). -/
theorem fetchTokenTradeData_failure_throws :
    (TokenProvider.fetchTokenTradeData none true (Except.error ())).1 = Except.error () ∧
    (TokenProvider.fetchTokenTradeData none true (Except.error ())).1 ≠
      Except.ok (some TokenProvider.getDefaultTradeData) :=
  ⟨rfl, fun hcon => Except.noConfusion hcon⟩

/-- C4 amended: on a source failure after retries the security, DEX-pair
and holder-list adapters return their zeroed/empty defaults without writing
the cache, while the trade-data and token-codex adapters propagate an
exception (also without writing the cache); the aggregator catches the
trade-data exception and substitutes the zeroed default record. -/
theorem adapters_failure_behavior :
    (TokenProvider.fetchTokenSecurity none (Except.error ()) =
      (defaultTokenSecurityData, none)) ∧
    (∀ addr, TokenProvider.fetchDexScreenerData addr none (Except.error ()) =
      (TokenProvider.emptyDexScreenerData, none)) ∧
    (TokenProvider.fetchHolderList none (Except.error ()) = ([], none)) ∧
    (TokenProvider.fetchTokenTradeData none true (Except.error ()) =
      (Except.error (), none)) ∧
    (∀ addr, TokenProvider.fetchTokenCodex (some addr) none (Except.error ()) =
      (Except.error (), none)) ∧
    (∀ tokenAddress sc sf cc cf trc trf cdf dc df hc hf,
      ∃ d, TokenProvider.getProcessedTokenData
          ⟨tokenAddress, sc, sf, cc, cf, none, true, Except.error (), trc, trf,
            cdf, dc, df, hc, hf⟩ = Except.ok d ∧
        d.tradeData = some TokenProvider.getDefaultTradeData) := by
  refine ⟨rfl, fun _ => rfl, rfl, rfl, fun _ => rfl, ?_⟩
  intro tokenAddress sc sf cc cf trc trf cdf dc df hc hf
  exact ⟨_, rfl, rfl⟩

/-- C5 counterexample: a successful holder-list fetch that returns an empty
list is not written to the cache — the write (second component) is `none`,
not `some []`. -/
theorem fetchHolderList_empty_success_not_cached :
    TokenProvider.fetchHolderList none (Except.ok ⟨some []⟩) = ([], none) ∧
    (TokenProvider.fetchHolderList none (Except.ok ⟨some []⟩)).2 ≠
      some ([] : List TokenProvider.HolderData) :=
  ⟨rfl, fun hcon => Option.noConfusion hcon⟩

/-- C5 amended: an empty successful holder-list response is returned as
`[]` but not written to the cache (the source caches only non-empty lists),
and a fetch error likewise returns `[]` and leaves the cache unwritten. -/
theorem fetchHolderList_empty_and_error :
    (TokenProvider.fetchHolderList none (Except.ok ⟨some []⟩) = ([], none)) ∧
    (TokenProvider.fetchHolderList none (Except.error ()) = ([], none)) :=
  ⟨rfl, rfl⟩

/-- C6 counterexample: when normalization of the input token identifier
fails, the `TokenProvider` constructor does not surface a `Malformed` error
— it completes and the provider continues with a silent `null` token
address. -/
theorem tokenProviderInit_swallows_normalization_failure :
    TokenProvider.tokenProviderInit (some "badaddress")
      (fun _ => Except.error ()) = none :=
  rfl

/-- C6 amended: for every input token identifier that fails normalization,
the constructor catches the error, sets the stored token address to `null`
and continues; no error reaches the caller. -/
theorem tokenProviderInit_null_on_failure (a : String)
    (f : String → Except Unit String) (h : f a = Except.error ()) :
    TokenProvider.tokenProviderInit (some a) f = none := by
  simp [TokenProvider.tokenProviderInit, h]

/-- Witness for the amended C6 theorem at a concrete failing input. -/
theorem tokenProviderInit_null_on_failure_witness :
    ((fun _ => Except.error ()) : String → Except Unit String) "bad" = Except.error () ∧
    TokenProvider.tokenProviderInit (some "bad") (fun _ => Except.error ()) = none :=
  ⟨rfl, tokenProviderInit_null_on_failure "bad" (fun _ => Except.error ()) rfl⟩

/-- C2 counterexample: with `volume_24h = 0` and `unique_wallet_24h = 50`
the `suspiciousVolume` predicate evaluates `50 / 0 = Infinity > 0.5` and
returns `true`, not `false` — there is no division-by-zero guard. -/
theorem suspiciousVolume_zero_volume_true :
    TrustScoreManager.suspiciousVolume exTradeZeroVolume = true := by
  decide

/-- C2 amended: for trade data with `volume_24h = 0` the predicate computes
`unique_wallet_24h / 0` with JavaScript semantics, so it returns `true`
exactly when `unique_wallet_24h` is positive (`Infinity > 0.5`); with zero
unique wallets it returns `false` only because `NaN > 0.5` is `false`.  In
particular `volume_24h = 0`, `unique_wallet_24h = 50` yields `true`. -/
theorem suspiciousVolume_zero_volume (td : TokenTradeData)
    (h : td.volume_24h = 0) :
    TrustScoreManager.suspiciousVolume td = true ↔ 0 < td.unique_wallet_24h := by
  simp only [TrustScoreManager.suspiciousVolume, JSNum.jgtb, h]
  by_cases h1 : td.unique_wallet_24h = 0
  · simp [JSNum.jdiv, h1, JSNum.jltb]
  · by_cases h2 : 0 < td.unique_wallet_24h
    · simp [JSNum.jdiv, h1, h2, JSNum.jltb]
    · simp [JSNum.jdiv, h1, h2, JSNum.jltb]

/-- Witness for the amended C2 theorem at the claim's concrete scenario. -/
theorem suspiciousVolume_zero_volume_witness :
    exTradeZeroVolume.volume_24h = 0 ∧
    (TrustScoreManager.suspiciousVolume exTradeZeroVolume = true ↔
      0 < exTradeZeroVolume.unique_wallet_24h) :=
  ⟨rfl, suspiciousVolume_zero_volume exTradeZeroVolume rfl⟩

/-- C3 counterexample: with the four non-nullable buckets at 13% and the
8h/24h buckets `null`, the non-null average is 13 (> 10, so the claim
demands "increasing"), but the source coalesces the `null` buckets to 0 and
divides by six (average 52/6 < 10), returning "stable". -/
theorem analyzeHolderDistribution_nulls_counted :
    TokenProvider.analyzeHolderDistribution (some exTradeNullBuckets) = "stable" ∧
    specHolderDistributionTrend exTradeNullBuckets = "increasing" := by
  constructor
  · norm_num [TokenProvider.analyzeHolderDistribution, exTradeNullBuckets]
  · norm_num [specHolderDistributionTrend, exTradeNullBuckets,
      List.filterMap_cons, List.filterMap_nil]

/-- C3 amended: the holder-distribution trend averages the six unique-wallet
percent-change buckets with every `null` bucket coalesced to 0 and included
(the divisor is always six); the trend is "increasing" above +10,
"decreasing" below -10, else "stable" — so when no bucket holds a value the
average is 0 and the trend is "stable". -/
theorem analyzeHolderDistribution_coalesces (t : Option TokenTradeData) :
    TokenProvider.analyzeHolderDistribution t = amendedHolderTrend t := by
  cases t with
  | none =>
    norm_num [TokenProvider.analyzeHolderDistribution, amendedHolderTrend,
      coalescedBucketAverage]
  | some td =>
    simp only [TokenProvider.analyzeHolderDistribution, amendedHolderTrend,
      coalescedBucketAverage, Option.map_some', Option.some_bind,
      Option.getD_some, List.sum_cons, List.sum_nil, List.length_cons,
      List.length_nil]
    norm_num
    split_ifs <;> first | rfl | (exfalso; linarith)

/-- Clamping to the unit interval is monotone. -/
theorem clamp01_mono {a b : ℚ} (h : a ≤ b) : clamp01 a ≤ clamp01 b :=
  max_le_max le_rfl (min_le_min le_rfl h)

/-- On finite inputs with nonzero thresholds, `calculateGemScore` computes
the rational `⌊(Σ weighted clamped ratios) * 100 + 1/2⌋`. -/
theorem calculateGemScore_eval (v l p m vt lt st mt : ℚ)
    (hvt : vt ≠ 0) (hlt : lt ≠ 0) (hst : st ≠ 0) (hmt : mt ≠ 0) :
    TokenProvider.calculateGemScore
      ⟨JSNum.num v, JSNum.num l, JSNum.num p, JSNum.num m⟩
      ⟨JSNum.num vt, JSNum.num lt, JSNum.num st, JSNum.num mt⟩ =
    JSNum.num ((⌊(clamp01 (v / vt) * (3 / 10) + clamp01 (l / lt) * (1 / 4) +
        clamp01 (|p| / st) * (1 / 4) + (1 - clamp01 (m / mt)) * (1 / 5)) * 100 +
        1 / 2⌋ : ℤ) : ℚ) := by
  simp only [TokenProvider.calculateGemScore, TokenProvider.normalize,
    JSNum.jsub, JSNum.jdiv, JSNum.jabs, JSNum.jmin, JSNum.jmax, JSNum.jmul,
    JSNum.jadd, JSNum.jround, sub_zero, hvt, hlt, hst, hmt, if_false, clamp01]
  norm_num

/-- C8 counterexample: with the non-negative threshold `volumeThreshold = 0`
the gem score is not monotone in 24h volume — at volume 0 the score is
`NaN` (`0/0` inside `normalize`), at volume 1 it is 50, and JavaScript
`NaN <= 50` is false. -/
theorem calculateGemScore_not_monotone_at_zero_threshold :
    JSNum.jleb exGemTokenVolumeZero.volume24hUSD exGemTokenVolumeOne.volume24hUSD = true ∧
    JSNum.jleb (JSNum.num 0) exGemCriteriaZeroVolumeThreshold.volumeThreshold = true ∧
    TokenProvider.calculateGemScore exGemTokenVolumeZero exGemCriteriaZeroVolumeThreshold =
      JSNum.nan ∧
    TokenProvider.calculateGemScore exGemTokenVolumeOne exGemCriteriaZeroVolumeThreshold =
      JSNum.num 50 ∧
    JSNum.jleb
      (TokenProvider.calculateGemScore exGemTokenVolumeZero exGemCriteriaZeroVolumeThreshold)
      (TokenProvider.calculateGemScore exGemTokenVolumeOne exGemCriteriaZeroVolumeThreshold) =
      false := by
  refine ⟨?_, ?_, ?_, ?_, ?_⟩ <;>
    norm_num [TokenProvider.calculateGemScore, TokenProvider.normalize,
      exGemTokenVolumeZero, exGemTokenVolumeOne, exGemCriteriaZeroVolumeThreshold,
      JSNum.jsub, JSNum.jdiv, JSNum.jabs, JSNum.jmin, JSNum.jmax, JSNum.jmul,
      JSNum.jadd, JSNum.jround, JSNum.jleb]

/-- C8 amended: for positive criteria thresholds and finite signal values,
the gem score is monotone non-decreasing in 24h volume, in liquidity, and in
the absolute 24h price change, the market-cap signal held fixed. -/
theorem calculateGemScore_monotone
    (vt lt st mt v1 v2 l1 l2 p1 p2 m : ℚ)
    (hvt : 0 < vt) (hlt : 0 < lt) (hst : 0 < st) (hmt : 0 < mt)
    (hv : v1 ≤ v2) (hl : l1 ≤ l2) (hp : |p1| ≤ |p2|) :
    JSNum.jleb
      (TokenProvider.calculateGemScore
        ⟨JSNum.num v1, JSNum.num l1, JSNum.num p1, JSNum.num m⟩
        ⟨JSNum.num vt, JSNum.num lt, JSNum.num st, JSNum.num mt⟩)
      (TokenProvider.calculateGemScore
        ⟨JSNum.num v2, JSNum.num l2, JSNum.num p2, JSNum.num m⟩
        ⟨JSNum.num vt, JSNum.num lt, JSNum.num st, JSNum.num mt⟩) = true := by
  rw [calculateGemScore_eval v1 l1 p1 m vt lt st mt hvt.ne' hlt.ne' hst.ne' hmt.ne',
    calculateGemScore_eval v2 l2 p2 m vt lt st mt hvt.ne' hlt.ne' hst.ne' hmt.ne']
  simp only [JSNum.jleb, decide_eq_true_eq]
  have h1 : clamp01 (v1 / vt) * (3 / 10) ≤ clamp01 (v2 / vt) * (3 / 10) :=
    mul_le_mul_of_nonneg_right (clamp01_mono ((div_le_div_iff_of_pos_right hvt).mpr hv))
      (by norm_num)
  have h2 : clamp01 (l1 / lt) * (1 / 4) ≤ clamp01 (l2 / lt) * (1 / 4) :=
    mul_le_mul_of_nonneg_right (clamp01_mono ((div_le_div_iff_of_pos_right hlt).mpr hl))
      (by norm_num)
  have h3 : clamp01 (|p1| / st) * (1 / 4) ≤ clamp01 (|p2| / st) * (1 / 4) :=
    mul_le_mul_of_nonneg_right (clamp01_mono ((div_le_div_iff_of_pos_right hst).mpr hp))
      (by norm_num)
  have hfloor :
      (⌊(clamp01 (v1 / vt) * (3 / 10) + clamp01 (l1 / lt) * (1 / 4) +
          clamp01 (|p1| / st) * (1 / 4) + (1 - clamp01 (m / mt)) * (1 / 5)) * 100 +
          1 / 2⌋ : ℤ) ≤
      ⌊(clamp01 (v2 / vt) * (3 / 10) + clamp01 (l2 / lt) * (1 / 4) +
          clamp01 (|p2| / st) * (1 / 4) + (1 - clamp01 (m / mt)) * (1 / 5)) * 100 +
          1 / 2⌋ :=
    Int.floor_le_floor (by nlinarith)
  exact_mod_cast hfloor

/-- Witness for the amended C8 theorem at concrete positive thresholds. -/
theorem calculateGemScore_monotone_witness :
    ((0 : ℚ) < 1 ∧ (0 : ℚ) ≤ 1 ∧ |(0 : ℚ)| ≤ |(0 : ℚ)|) ∧
    JSNum.jleb
      (TokenProvider.calculateGemScore
        ⟨JSNum.num 0, JSNum.num 0, JSNum.num 0, JSNum.num 0⟩
        ⟨JSNum.num 1, JSNum.num 1, JSNum.num 1, JSNum.num 1⟩)
      (TokenProvider.calculateGemScore
        ⟨JSNum.num 1, JSNum.num 0, JSNum.num 0, JSNum.num 0⟩
        ⟨JSNum.num 1, JSNum.num 1, JSNum.num 1, JSNum.num 1⟩) = true :=
  ⟨⟨by norm_num, by norm_num, le_rfl⟩,
    calculateGemScore_monotone 1 1 1 1 0 1 0 0 0 0 0 (by norm_num) (by norm_num)
      (by norm_num) (by norm_num) (by norm_num) le_rfl le_rfl⟩

/-- C10: `getHighestLiquidityPair` sorts the caller's pair array in place —
on a non-empty list the resulting array is a permutation of the original,
sorted by descending liquidity with ties by descending market cap, and the
returned pair is its first element; on an empty list the result is `null`
and the data is unchanged. -/
theorem getHighestLiquidityPair_sorts (d : TokenProvider.DexScreenerData) :
    (d.pairs = [] → TokenProvider.getHighestLiquidityPair d = (d, none)) ∧
    (d.pairs ≠ [] →
      List.Perm (TokenProvider.getHighestLiquidityPair d).1.pairs d.pairs ∧
      List.Sorted TokenProvider.pairLe (TokenProvider.getHighestLiquidityPair d).1.pairs ∧
      (TokenProvider.getHighestLiquidityPair d).2 =
        (TokenProvider.getHighestLiquidityPair d).1.pairs.head? ∧
      (TokenProvider.getHighestLiquidityPair d).1.schemaVersion = d.schemaVersion) := by
  constructor
  · intro h
    unfold TokenProvider.getHighestLiquidityPair
    rw [if_pos (by simp [h])]
  · intro h
    have hlen : ¬ d.pairs.length = 0 := by simpa [List.length_eq_zero] using h
    unfold TokenProvider.getHighestLiquidityPair
    rw [if_neg hlen]
    exact ⟨List.perm_insertionSort _ _, List.sorted_insertionSort _ _, rfl, rfl⟩

/-- Witness for the C10 theorem: the empty record is left unchanged, and a
concrete two-pair record is sorted with its head returned. -/
theorem getHighestLiquidityPair_sorts_witness :
    (TokenProvider.emptyDexScreenerData.pairs = [] ∧
      TokenProvider.getHighestLiquidityPair TokenProvider.emptyDexScreenerData =
        (TokenProvider.emptyDexScreenerData, none)) ∧
    (exDexData.pairs ≠ [] ∧
      (List.Perm (TokenProvider.getHighestLiquidityPair exDexData).1.pairs exDexData.pairs ∧
        List.Sorted TokenProvider.pairLe
          (TokenProvider.getHighestLiquidityPair exDexData).1.pairs ∧
        (TokenProvider.getHighestLiquidityPair exDexData).2 =
          (TokenProvider.getHighestLiquidityPair exDexData).1.pairs.head? ∧
        (TokenProvider.getHighestLiquidityPair exDexData).1.schemaVersion =
          exDexData.schemaVersion)) :=
  ⟨⟨rfl, (getHighestLiquidityPair_sorts TokenProvider.emptyDexScreenerData).1 rfl⟩,
    ⟨by decide, (getHighestLiquidityPair_sorts exDexData).2 (by decide)⟩⟩
